import Mathlib

/-!
# The SDL 1.2 stub declarations of TuxRacer (`src/stub_defs.h`)

The header consists of type declarations (three enumerations, a handful of records, the
event union) and function prototypes.  The enumerations are embedded as the list of their
enumerators, each with its optional initialiser, and are evaluated with the rule of the
C language; the records are embedded as structures whose fields are natural numbers or
integers together with the range of their C type; the union is embedded both as the list
of its members and as an inductive type with one constructor per member.
-/

namespace StubDefs

/-! ## C enumerations -/

/-- One enumerator of a C `enum` declaration: its name and its initialiser, when it has one. -/
abbrev Enumerator := String × Option Nat

/-- Values of the enumerators of a C `enum`, in declaration order: an enumerator with an
initialiser has that value, an enumerator without one has the value of the previous
enumerator plus one, and `next` is the value the next bare enumerator receives. -/
def enumValuesFrom (next : Nat) : List Enumerator → List (String × Nat)
  | [] => []
  | (n, some v) :: es => (n, v) :: enumValuesFrom (v + 1) es
  | (n, none) :: es => (n, next) :: enumValuesFrom (next + 1) es

/-- Values of a whole C `enum` declaration: the first bare enumerator is `0`. -/
def enumValues (decl : List Enumerator) : List (String × Nat) :=
  enumValuesFrom 0 decl

/-- Value of the first enumerator called `name`, when the enumeration declares it. -/
def enumLookup (vals : List (String × Nat)) (name : String) : Option Nat :=
  (vals.find? (fun e => e.1 == name)).map Prod.snd

/-! ## `SDLMod` (lines 10-24) -/

/-- The declaration `typedef enum SDLMod { ... } SDLMod;`. -/
def SDLMod.decl : List Enumerator :=
  [ ("KMOD_NONE", some 0x0000),
    ("KMOD_LSHIFT", some 0x0001),
    ("KMOD_RSHIFT", some 0x0002),
    ("KMOD_LCTRL", some 0x0040),
    ("KMOD_RCTRL", some 0x0080),
    ("KMOD_LALT", some 0x0100),
    ("KMOD_RALT", some 0x0200),
    ("KMOD_LMETA", some 0x0400),
    ("KMOD_RMETA", some 0x0800),
    ("KMOD_NUM", some 0x1000),
    ("KMOD_CAPS", some 0x2000),
    ("KMOD_MODE", some 0x4000),
    ("KMOD_RESERVED", some 0x8000) ]

/-- The modifier constants with their values. -/
def SDLMod.values : List (String × Nat) := enumValues SDLMod.decl

/-- Value of the modifier constant `name`. -/
def SDLMod.val (name : String) : Option Nat := enumLookup SDLMod.values name

/-- Bitwise OR of the values of a collection of modifier constants, starting from the
empty mask. -/
def SDLMod.orAll (S : List (String × Nat)) : Nat :=
  S.foldr (fun m acc => m.2 ||| acc) 0

/-- Number of bits set among the `w` low bits of `n`. -/
def popCountBits : Nat → Nat → Nat
  | 0, _ => 0
  | w + 1, n => n % 2 + popCountBits w (n / 2)

/-- Number of bits set in a 32-bit value (the enumeration constants and the `uint32_t`
masks of the header are at most 32 bits wide). -/
def popCount (n : Nat) : Nat := popCountBits 32 n

/-! ## `SDLKey` (lines 26-297) -/

/-- The two enumerators that open the declaration, both `0`. -/
def SDLKey.headDecl : List Enumerator :=
  [ ("SDLK_UNKNOWN", some 0), ("SDLK_FIRST", some 0) ]

/-- The ASCII mapped key symbols, `SDLK_BACKSPACE` to `SDLK_DELETE` (the upper-case
letters are skipped). -/
def SDLKey.asciiDecl : List Enumerator :=
  [ ("SDLK_BACKSPACE", some 8), ("SDLK_TAB", some 9), ("SDLK_CLEAR", some 12),
    ("SDLK_RETURN", some 13), ("SDLK_PAUSE", some 19), ("SDLK_ESCAPE", some 27),
    ("SDLK_SPACE", some 32), ("SDLK_EXCLAIM", some 33), ("SDLK_QUOTEDBL", some 34),
    ("SDLK_HASH", some 35), ("SDLK_DOLLAR", some 36), ("SDLK_AMPERSAND", some 38),
    ("SDLK_QUOTE", some 39), ("SDLK_LEFTPAREN", some 40), ("SDLK_RIGHTPAREN", some 41),
    ("SDLK_ASTERISK", some 42), ("SDLK_PLUS", some 43), ("SDLK_COMMA", some 44),
    ("SDLK_MINUS", some 45), ("SDLK_PERIOD", some 46), ("SDLK_SLASH", some 47),
    ("SDLK_0", some 48), ("SDLK_1", some 49), ("SDLK_2", some 50), ("SDLK_3", some 51),
    ("SDLK_4", some 52), ("SDLK_5", some 53), ("SDLK_6", some 54), ("SDLK_7", some 55),
    ("SDLK_8", some 56), ("SDLK_9", some 57), ("SDLK_COLON", some 58),
    ("SDLK_SEMICOLON", some 59), ("SDLK_LESS", some 60), ("SDLK_EQUALS", some 61),
    ("SDLK_GREATER", some 62), ("SDLK_QUESTION", some 63), ("SDLK_AT", some 64),
    ("SDLK_LEFTBRACKET", some 91), ("SDLK_BACKSLASH", some 92), ("SDLK_RIGHTBRACKET", some 93),
    ("SDLK_CARET", some 94), ("SDLK_UNDERSCORE", some 95), ("SDLK_BACKQUOTE", some 96),
    ("SDLK_a", some 97), ("SDLK_b", some 98), ("SDLK_c", some 99), ("SDLK_d", some 100),
    ("SDLK_e", some 101), ("SDLK_f", some 102), ("SDLK_g", some 103), ("SDLK_h", some 104),
    ("SDLK_i", some 105), ("SDLK_j", some 106), ("SDLK_k", some 107), ("SDLK_l", some 108),
    ("SDLK_m", some 109), ("SDLK_n", some 110), ("SDLK_o", some 111), ("SDLK_p", some 112),
    ("SDLK_q", some 113), ("SDLK_r", some 114), ("SDLK_s", some 115), ("SDLK_t", some 116),
    ("SDLK_u", some 117), ("SDLK_v", some 118), ("SDLK_w", some 119), ("SDLK_x", some 120),
    ("SDLK_y", some 121), ("SDLK_z", some 122), ("SDLK_DELETE", some 127) ]

/-- The international keyboard symbols, `SDLK_WORLD_0` to `SDLK_WORLD_95`. -/
def SDLKey.worldDecl : List Enumerator :=
  [ ("SDLK_WORLD_0", some 160), ("SDLK_WORLD_1", some 161), ("SDLK_WORLD_2", some 162),
    ("SDLK_WORLD_3", some 163), ("SDLK_WORLD_4", some 164), ("SDLK_WORLD_5", some 165),
    ("SDLK_WORLD_6", some 166), ("SDLK_WORLD_7", some 167), ("SDLK_WORLD_8", some 168),
    ("SDLK_WORLD_9", some 169), ("SDLK_WORLD_10", some 170), ("SDLK_WORLD_11", some 171),
    ("SDLK_WORLD_12", some 172), ("SDLK_WORLD_13", some 173), ("SDLK_WORLD_14", some 174),
    ("SDLK_WORLD_15", some 175), ("SDLK_WORLD_16", some 176), ("SDLK_WORLD_17", some 177),
    ("SDLK_WORLD_18", some 178), ("SDLK_WORLD_19", some 179), ("SDLK_WORLD_20", some 180),
    ("SDLK_WORLD_21", some 181), ("SDLK_WORLD_22", some 182), ("SDLK_WORLD_23", some 183),
    ("SDLK_WORLD_24", some 184), ("SDLK_WORLD_25", some 185), ("SDLK_WORLD_26", some 186),
    ("SDLK_WORLD_27", some 187), ("SDLK_WORLD_28", some 188), ("SDLK_WORLD_29", some 189),
    ("SDLK_WORLD_30", some 190), ("SDLK_WORLD_31", some 191), ("SDLK_WORLD_32", some 192),
    ("SDLK_WORLD_33", some 193), ("SDLK_WORLD_34", some 194), ("SDLK_WORLD_35", some 195),
    ("SDLK_WORLD_36", some 196), ("SDLK_WORLD_37", some 197), ("SDLK_WORLD_38", some 198),
    ("SDLK_WORLD_39", some 199), ("SDLK_WORLD_40", some 200), ("SDLK_WORLD_41", some 201),
    ("SDLK_WORLD_42", some 202), ("SDLK_WORLD_43", some 203), ("SDLK_WORLD_44", some 204),
    ("SDLK_WORLD_45", some 205), ("SDLK_WORLD_46", some 206), ("SDLK_WORLD_47", some 207),
    ("SDLK_WORLD_48", some 208), ("SDLK_WORLD_49", some 209), ("SDLK_WORLD_50", some 210),
    ("SDLK_WORLD_51", some 211), ("SDLK_WORLD_52", some 212), ("SDLK_WORLD_53", some 213),
    ("SDLK_WORLD_54", some 214), ("SDLK_WORLD_55", some 215), ("SDLK_WORLD_56", some 216),
    ("SDLK_WORLD_57", some 217), ("SDLK_WORLD_58", some 218), ("SDLK_WORLD_59", some 219),
    ("SDLK_WORLD_60", some 220), ("SDLK_WORLD_61", some 221), ("SDLK_WORLD_62", some 222),
    ("SDLK_WORLD_63", some 223), ("SDLK_WORLD_64", some 224), ("SDLK_WORLD_65", some 225),
    ("SDLK_WORLD_66", some 226), ("SDLK_WORLD_67", some 227), ("SDLK_WORLD_68", some 228),
    ("SDLK_WORLD_69", some 229), ("SDLK_WORLD_70", some 230), ("SDLK_WORLD_71", some 231),
    ("SDLK_WORLD_72", some 232), ("SDLK_WORLD_73", some 233), ("SDLK_WORLD_74", some 234),
    ("SDLK_WORLD_75", some 235), ("SDLK_WORLD_76", some 236), ("SDLK_WORLD_77", some 237),
    ("SDLK_WORLD_78", some 238), ("SDLK_WORLD_79", some 239), ("SDLK_WORLD_80", some 240),
    ("SDLK_WORLD_81", some 241), ("SDLK_WORLD_82", some 242), ("SDLK_WORLD_83", some 243),
    ("SDLK_WORLD_84", some 244), ("SDLK_WORLD_85", some 245), ("SDLK_WORLD_86", some 246),
    ("SDLK_WORLD_87", some 247), ("SDLK_WORLD_88", some 248), ("SDLK_WORLD_89", some 249),
    ("SDLK_WORLD_90", some 250), ("SDLK_WORLD_91", some 251), ("SDLK_WORLD_92", some 252),
    ("SDLK_WORLD_93", some 253), ("SDLK_WORLD_94", some 254), ("SDLK_WORLD_95", some 255) ]

/-- The numeric keypad. -/
def SDLKey.keypadDecl : List Enumerator :=
  [ ("SDLK_KP0", some 256), ("SDLK_KP1", some 257), ("SDLK_KP2", some 258),
    ("SDLK_KP3", some 259), ("SDLK_KP4", some 260), ("SDLK_KP5", some 261),
    ("SDLK_KP6", some 262), ("SDLK_KP7", some 263), ("SDLK_KP8", some 264),
    ("SDLK_KP9", some 265), ("SDLK_KP_PERIOD", some 266), ("SDLK_KP_DIVIDE", some 267),
    ("SDLK_KP_MULTIPLY", some 268), ("SDLK_KP_MINUS", some 269), ("SDLK_KP_PLUS", some 270),
    ("SDLK_KP_ENTER", some 271), ("SDLK_KP_EQUALS", some 272) ]

/-- The arrows and the Home/End pad. -/
def SDLKey.arrowsDecl : List Enumerator :=
  [ ("SDLK_UP", some 273), ("SDLK_DOWN", some 274), ("SDLK_RIGHT", some 275),
    ("SDLK_LEFT", some 276), ("SDLK_INSERT", some 277), ("SDLK_HOME", some 278),
    ("SDLK_END", some 279), ("SDLK_PAGEUP", some 280), ("SDLK_PAGEDOWN", some 281) ]

/-- The function keys. -/
def SDLKey.functionDecl : List Enumerator :=
  [ ("SDLK_F1", some 282), ("SDLK_F2", some 283), ("SDLK_F3", some 284), ("SDLK_F4", some 285),
    ("SDLK_F5", some 286), ("SDLK_F6", some 287), ("SDLK_F7", some 288), ("SDLK_F8", some 289),
    ("SDLK_F9", some 290), ("SDLK_F10", some 291), ("SDLK_F11", some 292),
    ("SDLK_F12", some 293), ("SDLK_F13", some 294), ("SDLK_F14", some 295),
    ("SDLK_F15", some 296) ]

/-- The key state modifier keys. -/
def SDLKey.modifierDecl : List Enumerator :=
  [ ("SDLK_NUMLOCK", some 300), ("SDLK_CAPSLOCK", some 301), ("SDLK_SCROLLOCK", some 302),
    ("SDLK_RSHIFT", some 303), ("SDLK_LSHIFT", some 304), ("SDLK_RCTRL", some 305),
    ("SDLK_LCTRL", some 306), ("SDLK_RALT", some 307), ("SDLK_LALT", some 308),
    ("SDLK_RMETA", some 309), ("SDLK_LMETA", some 310), ("SDLK_LSUPER", some 311),
    ("SDLK_RSUPER", some 312), ("SDLK_MODE", some 313), ("SDLK_COMPOSE", some 314) ]

/-- The miscellaneous function keys. -/
def SDLKey.miscDecl : List Enumerator :=
  [ ("SDLK_HELP", some 315), ("SDLK_PRINT", some 316), ("SDLK_SYSREQ", some 317),
    ("SDLK_BREAK", some 318), ("SDLK_MENU", some 319), ("SDLK_POWER", some 320),
    ("SDLK_EURO", some 321), ("SDLK_UNDO", some 322) ]

/-- The closing enumerator `SDLK_LAST`, which has no initialiser. -/
def SDLKey.lastDecl : List Enumerator :=
  [ ("SDLK_LAST", none) ]

/-- The declaration `typedef enum { SDLK_UNKNOWN = 0, ..., SDLK_LAST } SDLKey;`, in
declaration order. -/
def SDLKey.decl : List Enumerator :=
  SDLKey.headDecl ++ SDLKey.asciiDecl ++ SDLKey.worldDecl ++ SDLKey.keypadDecl ++
    SDLKey.arrowsDecl ++ SDLKey.functionDecl ++ SDLKey.modifierDecl ++ SDLKey.miscDecl ++
    SDLKey.lastDecl

/-- The enumerators of `SDLKey` with their values. -/
def SDLKey.values : List (String × Nat) := enumValues SDLKey.decl

/-- Value of the enumerator `name` of `SDLKey`. -/
def SDLKey.val (name : String) : Option Nat := enumLookup SDLKey.values name

/-- The constant `SDLK_LAST`, one past the last key symbol. -/
def SDLK_LAST : Nat := (SDLKey.val "SDLK_LAST").getD 0

/-- The key symbols: every enumerator of `SDLKey` except the closing `SDLK_LAST`, which
counts the table and names no key. -/
def SDLKey.keys : List (String × Nat) :=
  SDLKey.values.filter (fun e => e.1 != "SDLK_LAST")

/-- The key symbols from `SDLK_BACKSPACE` to `SDLK_UNDO`, in declaration order. -/
def SDLKey.namedKeys : List (String × Nat) :=
  enumValues (SDLKey.asciiDecl ++ SDLKey.worldDecl ++ SDLKey.keypadDecl ++
    SDLKey.arrowsDecl ++ SDLKey.functionDecl ++ SDLKey.modifierDecl ++ SDLKey.miscDecl)

/-- The character each ASCII mapped key symbol is named after, as a one-character string.
A printable key is named after the character it types; a control key is paired with the
ASCII control character of the same function: backspace `BS`, tab `HT`, clear `FF` (form
feed), return `CR`, pause `DC3`, escape `ESC`, delete `DEL`. -/
def SDLKey.character : List (String × String) :=
  [ ("SDLK_BACKSPACE", "\x08"), ("SDLK_TAB", "\t"), ("SDLK_CLEAR", "\x0c"),
    ("SDLK_RETURN", "\r"), ("SDLK_PAUSE", "\x13"), ("SDLK_ESCAPE", "\x1b"),
    ("SDLK_SPACE", " "), ("SDLK_EXCLAIM", "!"), ("SDLK_QUOTEDBL", "\x22"),
    ("SDLK_HASH", "#"), ("SDLK_DOLLAR", "$"), ("SDLK_AMPERSAND", "&"),
    ("SDLK_QUOTE", "\x27"), ("SDLK_LEFTPAREN", "("), ("SDLK_RIGHTPAREN", ")"),
    ("SDLK_ASTERISK", "*"), ("SDLK_PLUS", "+"), ("SDLK_COMMA", ","),
    ("SDLK_MINUS", "-"), ("SDLK_PERIOD", "."), ("SDLK_SLASH", "/"),
    ("SDLK_0", "0"), ("SDLK_1", "1"), ("SDLK_2", "2"), ("SDLK_3", "3"),
    ("SDLK_4", "4"), ("SDLK_5", "5"), ("SDLK_6", "6"), ("SDLK_7", "7"),
    ("SDLK_8", "8"), ("SDLK_9", "9"), ("SDLK_COLON", ":"),
    ("SDLK_SEMICOLON", ";"), ("SDLK_LESS", "<"), ("SDLK_EQUALS", "="),
    ("SDLK_GREATER", ">"), ("SDLK_QUESTION", "?"), ("SDLK_AT", "@"),
    ("SDLK_LEFTBRACKET", "["), ("SDLK_BACKSLASH", "\x5c"), ("SDLK_RIGHTBRACKET", "]"),
    ("SDLK_CARET", "^"), ("SDLK_UNDERSCORE", "_"), ("SDLK_BACKQUOTE", "\x60"),
    ("SDLK_a", "a"), ("SDLK_b", "b"), ("SDLK_c", "c"), ("SDLK_d", "d"), ("SDLK_e", "e"),
    ("SDLK_f", "f"), ("SDLK_g", "g"), ("SDLK_h", "h"), ("SDLK_i", "i"), ("SDLK_j", "j"),
    ("SDLK_k", "k"), ("SDLK_l", "l"), ("SDLK_m", "m"), ("SDLK_n", "n"), ("SDLK_o", "o"),
    ("SDLK_p", "p"), ("SDLK_q", "q"), ("SDLK_r", "r"), ("SDLK_s", "s"), ("SDLK_t", "t"),
    ("SDLK_u", "u"), ("SDLK_v", "v"), ("SDLK_w", "w"), ("SDLK_x", "x"), ("SDLK_y", "y"),
    ("SDLK_z", "z"), ("SDLK_DELETE", "\x7f") ]

/-- ASCII code of the character the key symbol `name` is named after. -/
def SDLKey.asciiCode (name : String) : Option Nat :=
  match SDLKey.character.find? (fun e => e.1 == name) with
  | some (_, c) => if c.length = 1 then some (c.get 0).toNat else none
  | none => none

/-- Name of the key symbol of the lower-case letter number `i` (from `0` for `a`). -/
def SDLKey.letterName (i : Nat) : String := "SDLK_" ++ String.singleton (Char.ofNat (97 + i))

/-- Name of the key symbol of the decimal digit `d`. -/
def SDLKey.digitName (d : Nat) : String := "SDLK_" ++ String.singleton (Char.ofNat (48 + d))

/-! ## `SDL_GLattr` (lines 330-347) -/

/-- The declaration `typedef enum { SDL_GL_RED_SIZE = 0, ... } SDL_GLattr;`: only the
first enumerator has an initialiser. -/
def SDL_GLattr.decl : List Enumerator :=
  [ ("SDL_GL_RED_SIZE", some 0),
    ("SDL_GL_GREEN_SIZE", none),
    ("SDL_GL_BLUE_SIZE", none),
    ("SDL_GL_ALPHA_SIZE", none),
    ("SDL_GL_DOUBLEBUFFER", none),
    ("SDL_GL_BUFFER_SIZE", none),
    ("SDL_GL_DEPTH_SIZE", none),
    ("SDL_GL_STENCIL_SIZE", none),
    ("SDL_GL_ACCUM_RED_SIZE", none),
    ("SDL_GL_ACCUM_GREEN_SIZE", none),
    ("SDL_GL_ACCUM_BLUE_SIZE", none),
    ("SDL_GL_ACCUM_ALPHA_SIZE", none) ]

/-- The GL attribute keys with their values. -/
def SDL_GLattr.values : List (String × Nat) := enumValues SDL_GLattr.decl

/-- Value of the GL attribute key `name`. -/
def SDL_GLattr.val (name : String) : Option Nat := enumLookup SDL_GLattr.values name

/-- Linear check that a list of numbers is strictly increasing. -/
def strictlyIncreasing : List Nat → Bool
  | [] => true
  | [_] => true
  | a :: b :: t => decide (a < b) && strictlyIncreasing (b :: t)

/-! ## Ranges of the C integer types of the header -/

/-- Largest `uint8_t`. -/
def UINT8_MAX : Nat := 2 ^ 8 - 1

/-- Largest `uint16_t`. -/
def UINT16_MAX : Nat := 2 ^ 16 - 1

/-- Largest `uint32_t`. -/
def UINT32_MAX : Nat := 2 ^ 32 - 1

/-- Largest `int` (32 bits on the Linux targets of the program). -/
def INT_MAX : Int := 2 ^ 31 - 1

/-- Smallest `int`. -/
def INT_MIN : Int := -(2 ^ 31)

/-- Membership in the range of `int`. -/
def isInt (v : Int) : Prop := INT_MIN ≤ v ∧ v ≤ INT_MAX

instance (v : Int) : Decidable (isInt v) := by unfold isInt; infer_instance

/-! ## `SDL_PixelFormat` (lines 300-309) -/

/-- The record `struct SDL_PixelFormat`.  The pointer `palette` is kept as an address
(`0` for `NULL`); the other fields are unsigned integers of 8 or 32 bits. -/
structure SDL_PixelFormat where
  palette : Nat
  BitsPerPixel : Nat
  BytesPerPixel : Nat
  Rloss : Nat
  Gloss : Nat
  Bloss : Nat
  Aloss : Nat
  Rshift : Nat
  Gshift : Nat
  Bshift : Nat
  Ashift : Nat
  Rmask : Nat
  Gmask : Nat
  Bmask : Nat
  Amask : Nat
  colorkey : Nat
  alpha : Nat
  deriving DecidableEq, Repr

/-- Every field of the record holds a value of its C type: the header puts no other
condition on a pixel format and declares no function that builds or checks one. -/
def SDL_PixelFormat.inRange (f : SDL_PixelFormat) : Prop :=
  f.BitsPerPixel ≤ UINT8_MAX ∧ f.BytesPerPixel ≤ UINT8_MAX ∧
  f.Rloss ≤ UINT8_MAX ∧ f.Gloss ≤ UINT8_MAX ∧ f.Bloss ≤ UINT8_MAX ∧ f.Aloss ≤ UINT8_MAX ∧
  f.Rshift ≤ UINT8_MAX ∧ f.Gshift ≤ UINT8_MAX ∧ f.Bshift ≤ UINT8_MAX ∧
  f.Ashift ≤ UINT8_MAX ∧
  f.Rmask ≤ UINT32_MAX ∧ f.Gmask ≤ UINT32_MAX ∧ f.Bmask ≤ UINT32_MAX ∧
  f.Amask ≤ UINT32_MAX ∧
  f.colorkey ≤ UINT32_MAX ∧ f.alpha ≤ UINT8_MAX

instance (f : SDL_PixelFormat) : Decidable f.inRange := by
  unfold SDL_PixelFormat.inRange; infer_instance

/-- The four channel masks are pairwise non-overlapping. -/
def SDL_PixelFormat.masksDisjoint (f : SDL_PixelFormat) : Prop :=
  f.Rmask &&& f.Gmask = 0 ∧ f.Rmask &&& f.Bmask = 0 ∧ f.Rmask &&& f.Amask = 0 ∧
  f.Gmask &&& f.Bmask = 0 ∧ f.Gmask &&& f.Amask = 0 ∧ f.Bmask &&& f.Amask = 0

instance (f : SDL_PixelFormat) : Decidable f.masksDisjoint := by
  unfold SDL_PixelFormat.masksDisjoint; infer_instance

/-- The four channel masks jointly fit within `BitsPerPixel` bits. -/
def SDL_PixelFormat.masksFit (f : SDL_PixelFormat) : Prop :=
  f.Rmask ||| f.Gmask ||| f.Bmask ||| f.Amask < 2 ^ f.BitsPerPixel

instance (f : SDL_PixelFormat) : Decidable f.masksFit := by
  unfold SDL_PixelFormat.masksFit; infer_instance

/-- Sum of the widths (numbers of bits set) of the four channel masks. -/
def SDL_PixelFormat.maskWidths (f : SDL_PixelFormat) : Nat :=
  popCount f.Rmask + popCount f.Gmask + popCount f.Bmask + popCount f.Amask

/-- Modelled from the spec: the self-consistency of the shift/mask/loss triplet of a channel,
"mask == ((0xFF >> loss) << shift)"; the header declares no such check. -/
def channelConsistent (loss shift mask : Nat) : Prop := mask = (0xFF >>> loss) <<< shift

instance (loss shift mask : Nat) : Decidable (channelConsistent loss shift mask) := by
  unfold channelConsistent; infer_instance

/-- Modelled from the spec: the validation the specification describes for a pixel format, the
four triplets self-consistent and the bits per pixel among the supported depths
`1, 2, 4, 8, 15, 16, 24, 32`; the header declares no function that performs it. -/
def SDL_PixelFormat.describedValid (f : SDL_PixelFormat) : Prop :=
  channelConsistent f.Rloss f.Rshift f.Rmask ∧ channelConsistent f.Gloss f.Gshift f.Gmask ∧
  channelConsistent f.Bloss f.Bshift f.Bmask ∧ channelConsistent f.Aloss f.Ashift f.Amask ∧
  f.BitsPerPixel ∈ [1, 2, 4, 8, 15, 16, 24, 32]

instance (f : SDL_PixelFormat) : Decidable f.describedValid := by
  unfold SDL_PixelFormat.describedValid; infer_instance

/-- A pixel format of eight bits per pixel whose red and green masks are both `0xFF` and
whose blue mask is `0xFF00`; every field is within its C type. -/
def SDL_PixelFormat.overlapping : SDL_PixelFormat :=
  { palette := 0, BitsPerPixel := 8, BytesPerPixel := 1,
    Rloss := 0, Gloss := 0, Bloss := 0, Aloss := 8,
    Rshift := 0, Gshift := 0, Bshift := 8, Ashift := 0,
    Rmask := 0xFF, Gmask := 0xFF, Bmask := 0xFF00, Amask := 0,
    colorkey := 0, alpha := 255 }

/-- The pixel format of 32 bits per pixel with one byte per channel, red in the top byte
and alpha in the bottom byte. -/
def SDL_PixelFormat.rgba8888 : SDL_PixelFormat :=
  { palette := 0, BitsPerPixel := 32, BytesPerPixel := 4,
    Rloss := 0, Gloss := 0, Bloss := 0, Aloss := 0,
    Rshift := 24, Gshift := 16, Bshift := 8, Ashift := 0,
    Rmask := 0xFF000000, Gmask := 0x00FF0000, Bmask := 0x0000FF00, Amask := 0x000000FF,
    colorkey := 0, alpha := 255 }

/-! ## `SDL_Rect` (lines 325-328) and `SDL_Surface` (lines 468-482) -/

/-- The record `struct SDL_Rect`. -/
structure SDL_Rect where
  x : Int
  y : Int
  w : Int
  h : Int
  deriving DecidableEq, Repr

/-- The record `struct SDL_Surface`.  The pixel format, a pointer in C, is kept by value
and the pointer `pixels` as an address. -/
structure SDL_Surface where
  flags : Nat
  format : SDL_PixelFormat
  w : Int
  h : Int
  pitch : Nat
  pixels : Nat
  clip_rect : SDL_Rect
  refcount : Int
  deriving DecidableEq, Repr

/-- Every field of the surface holds a value of its C type: `flags` is a `uint32_t`,
`w`, `h`, `refcount` and the clip rectangle are of type `int`, `pitch` is a `uint16_t`. -/
def SDL_Surface.inRange (s : SDL_Surface) : Prop :=
  s.flags ≤ UINT32_MAX ∧ s.format.inRange ∧ isInt s.w ∧ isInt s.h ∧
  s.pitch ≤ UINT16_MAX ∧
  isInt s.clip_rect.x ∧ isInt s.clip_rect.y ∧ isInt s.clip_rect.w ∧ isInt s.clip_rect.h ∧
  isInt s.refcount

instance (s : SDL_Surface) : Decidable s.inRange := by
  unfold SDL_Surface.inRange; infer_instance

/-- The pitch invariant of a surface: the row stride is at least the width times the bytes
per pixel of the format. -/
def SDL_Surface.pitchInvariant (s : SDL_Surface) : Prop :=
  s.w * (s.format.BytesPerPixel : Int) ≤ (s.pitch : Int)

instance (s : SDL_Surface) : Decidable s.pitchInvariant := by
  unfold SDL_Surface.pitchInvariant; infer_instance

/-- A surface of width `w` whose format has `bytes` bytes per pixel and whose pitch is `p`;
the other fields are zero. -/
def SDL_Surface.ofSize (w : Int) (bytes p : Nat) : SDL_Surface :=
  { flags := 0,
    format :=
      { palette := 0, BitsPerPixel := 8 * bytes, BytesPerPixel := bytes,
        Rloss := 0, Gloss := 0, Bloss := 0, Aloss := 0,
        Rshift := 0, Gshift := 0, Bshift := 0, Ashift := 0,
        Rmask := 0, Gmask := 0, Bmask := 0, Amask := 0, colorkey := 0, alpha := 0 },
    w := w, h := 1, pitch := p, pixels := 0,
    clip_rect := { x := 0, y := 0, w := 0, h := 0 }, refcount := 1 }

/-! ## The key state table of `SDL_GetKeyState` (line 487) -/

/-- Reading the key state table at the index of a key symbol: `none` when the index is
outside the table. -/
def keyStateAt (table : List Nat) (sym : Nat) : Option Nat := table.get? sym

/-! ## `SDL_keysym` (lines 349-354) and `SDL_Event` (lines 361-429) as declarations -/

/-- The C types of the fields of `SDL_keysym` and `SDL_Event`. -/
inductive CType where
  | uint8_t
  | uint16_t
  | int16_t
  | int
  | SDLKey
  | SDLMod
  | SDL_keysym
  | voidPtr
  | SDL_SysWMmsgPtr
  deriving DecidableEq, Repr

/-- A field declaration: its type and its name. -/
abbrev Field := CType × String

/-- A member of a C union: a scalar, or a named anonymous `struct` with its fields in
declaration order. -/
inductive Member where
  | scalar (f : Field)
  | struct (name : String) (fields : List Field)
  deriving DecidableEq, Repr

/-- The declaration `typedef struct { ... } SDL_keysym;`. -/
def SDL_keysym.decl : List Field :=
  [ (.uint8_t, "scancode"), (.SDLKey, "sym"), (.SDLMod, "mod"), (.uint16_t, "unicode") ]

/-- The declaration `typedef union { ... } SDL_Event;`, member by member. -/
def SDL_Event.decl : List Member :=
  [ .scalar (.uint8_t, "type"),
    .struct "active" [(.uint8_t, "type"), (.uint8_t, "gain"), (.uint8_t, "state")],
    .struct "key" [(.uint8_t, "type"), (.uint8_t, "state"), (.SDL_keysym, "keysym")],
    .struct "motion" [(.uint8_t, "type"), (.uint8_t, "state"), (.uint16_t, "x"),
      (.uint16_t, "y"), (.int16_t, "xrel"), (.int16_t, "yrel")],
    .struct "button" [(.uint8_t, "type"), (.uint8_t, "button"), (.uint8_t, "state"),
      (.uint16_t, "x"), (.uint16_t, "y")],
    .struct "jaxis" [(.uint8_t, "type"), (.uint8_t, "which"), (.uint8_t, "axis"),
      (.int16_t, "value")],
    .struct "jball" [(.uint8_t, "type"), (.uint8_t, "which"), (.uint8_t, "ball"),
      (.int16_t, "xrel"), (.int16_t, "yrel")],
    .struct "jhat" [(.uint8_t, "type"), (.uint8_t, "which"), (.uint8_t, "hat"),
      (.uint8_t, "value")],
    .struct "jbutton" [(.uint8_t, "type"), (.uint8_t, "which"), (.uint8_t, "button"),
      (.uint8_t, "state")],
    .struct "resize" [(.uint8_t, "type"), (.int, "w"), (.int, "h")],
    .struct "expose" [(.uint8_t, "type")],
    .struct "quit" [(.uint8_t, "type")],
    .struct "user" [(.uint8_t, "type"), (.int, "code"), (.voidPtr, "data1"),
      (.voidPtr, "data2")],
    .struct "syswm" [(.uint8_t, "type"), (.SDL_SysWMmsgPtr, "msg")] ]

/-- The payload members of a union: its `struct` members, each with its fields. -/
def payloadMembers : List Member → List (String × List Field)
  | [] => []
  | .scalar _ :: ms => payloadMembers ms
  | .struct n fs :: ms => (n, fs) :: payloadMembers ms

/-- The payload members of `SDL_Event`. -/
def SDL_Event.members : List (String × List Field) := payloadMembers SDL_Event.decl

/-- The field `uint8_t type`, the tag every member of `SDL_Event` starts with. -/
def tagField : Field := (.uint8_t, "type")

/-- Names of the fields a payload member carries besides the tag: the names of its fields,
the leading tag removed. -/
def payloadNames (fs : List Field) : List String :=
  match fs with
  | [] => []
  | f :: rest => if f = tagField then rest.map Prod.snd else (f :: rest).map Prod.snd

/-- The shapes of `SDL_Event`: each payload member with the names of the fields it
carries besides the tag. -/
def SDL_Event.shapes : List (String × List String) :=
  SDL_Event.members.map (fun m => (m.1, payloadNames m.2))

/-- The fields the member `name` of `SDL_Event` carries besides the tag. -/
def SDL_Event.shapeOf (name : String) : Option (List String) :=
  (SDL_Event.shapes.find? (fun m => m.1 == name)).map Prod.snd

/-- The thirteen shapes as the specification lists them, each under the name of the member
it describes: activation, key, mouse motion, mouse button, joystick axis, ball, hat and
button, resize, expose, quit, user and system message. -/
def SDL_Event.listedShapes : List (String × List String) :=
  [ ("active", ["gain", "state"]),
    ("key", ["state", "keysym"]),
    ("motion", ["x", "y", "xrel", "yrel"]),
    ("button", ["button", "state", "x", "y"]),
    ("jaxis", ["which", "axis", "value"]),
    ("jball", ["which", "ball", "xrel", "yrel"]),
    ("jhat", ["which", "hat", "value"]),
    ("jbutton", ["which", "button", "state"]),
    ("resize", ["w", "h"]),
    ("expose", []),
    ("quit", []),
    ("user", ["code", "data1", "data2"]),
    ("syswm", ["msg"]) ]

/-! ## `SDL_keysym` and `SDL_Event` as values -/

/-- A value of `SDL_keysym`: scancode, key symbol, modifier mask and unicode value. -/
structure SDL_keysym where
  scancode : Nat
  sym : Nat
  mod : Nat
  unicode : Nat
  deriving DecidableEq, Repr

/-- A value of the union `SDL_Event`, seen through the member it was written through: one
constructor per `struct` member, with the fields of that member in declaration order.
Unsigned fields are natural numbers, signed fields integers, pointers addresses. -/
inductive SDL_Event where
  | active (type gain state : Nat)
  | key (type state : Nat) (keysym : SDL_keysym)
  | motion (type state x y : Nat) (xrel yrel : Int)
  | button (type button state x y : Nat)
  | jaxis (type which axis : Nat) (value : Int)
  | jball (type which ball : Nat) (xrel yrel : Int)
  | jhat (type which hat value : Nat)
  | jbutton (type which button state : Nat)
  | resize (type : Nat) (w h : Int)
  | expose (type : Nat)
  | quit (type : Nat)
  | user (type : Nat) (code : Int) (data1 data2 : Nat)
  | syswm (type : Nat) (msg : Nat)
  deriving DecidableEq, Repr

/-! ## The event queue behind `SDL_PollEvent` (line 505) -/

/-- Modelled from the spec: the policy of a bounded event queue when it is full, "oldest-event-drop
or newest-event-reject, a fixed policy chosen at init"; the header declares no queue. -/
inductive OverflowPolicy where
  | dropOldest
  | rejectNewest
  deriving DecidableEq, Repr

/-- Modelled from the spec: the event queue, "an ordered, bounded-or-growable sequence of Events,
FIFO, single-consumer", of which the header only declares the consumer `SDL_PollEvent`.
The head of `events` is the oldest event; `capacity` is `none` for a growable queue. -/
structure EventQueue where
  capacity : Option Nat
  policy : OverflowPolicy
  events : List SDL_Event
  deriving DecidableEq, Repr

/-- Modelled from the spec: the queue "created at subsystem init", empty; the header has no
body for `SDL_Init`. -/
def EventQueue.init (capacity : Option Nat) (policy : OverflowPolicy) : EventQueue :=
  { capacity := capacity, policy := policy, events := [] }

/-- Modelled from the spec: a bounded queue is full when it holds `capacity` events; the header
declares no queue. -/
def EventQueue.full (q : EventQueue) : Bool :=
  match q.capacity with
  | none => false
  | some c => decide (c ≤ q.events.length)

/-- Modelled from the spec: `push(event)`, "enqueue at tail", queue length +1 "subject to capacity
policy"; on a full queue the oldest event is dropped or the new one rejected.  The header
declares no producer function. -/
def EventQueue.push (q : EventQueue) (e : SDL_Event) : EventQueue :=
  if q.full then
    match q.policy with
    | .dropOldest => { q with events := (q.events ++ [e]).drop (q.events.length + 1 - (q.capacity.getD 0)) }
    | .rejectNewest => q
  else { q with events := q.events ++ [e] }

/-- Modelled from the spec: `poll() -> Event | empty`, "dequeue from head if non-empty, else
report empty"; the body of `SDL_PollEvent` is not in the header. -/
def EventQueue.poll (q : EventQueue) : Option SDL_Event × EventQueue :=
  match q.events with
  | [] => (none, q)
  | e :: es => (some e, { q with events := es })

/-- Modelled from the spec: `int SDL_PollEvent(SDL_Event *event)`, of which the header has the
prototype only: the result is `1` and the dequeued event is stored in `*event` when the
queue holds an event, and the result is `0` with `*event` and the queue unchanged when it
is empty. -/
def SDL_PollEvent (q : EventQueue) (event : SDL_Event) : Int × SDL_Event × EventQueue :=
  match q.poll with
  | (some e, q') => (1, e, q')
  | (none, q') => (0, event, q')

/-- Pushing a sequence of events, in order. -/
def EventQueue.pushAll (q : EventQueue) (evs : List SDL_Event) : EventQueue :=
  evs.foldl EventQueue.push q

/-- Polling `n` times: the outcomes in order and the queue left. -/
def EventQueue.pollN : Nat → EventQueue → List (Option SDL_Event) × EventQueue
  | 0, q => ([], q)
  | n + 1, q =>
    let r := q.poll
    let rest := EventQueue.pollN n r.2
    (r.1 :: rest.1, rest.2)

end StubDefs

open StubDefs

set_option maxRecDepth 100000

/-! ## Bitwise helper lemmas -/

theorem lor_eq_zero_iff (a b : Nat) : a ||| b = 0 ↔ a = 0 ∧ b = 0 := by
  constructor
  · intro h
    have key : ∀ i, (a.testBit i || b.testBit i) = false := by
      intro i
      rw [← Nat.testBit_or, h, Nat.zero_testBit]
    constructor
    · apply Nat.eq_of_testBit_eq
      intro i
      have := key i
      rw [Nat.zero_testBit]
      cases ha : a.testBit i <;> simp_all
    · apply Nat.eq_of_testBit_eq
      intro i
      have := key i
      rw [Nat.zero_testBit]
      cases hb : b.testBit i <;> simp_all
  · rintro ⟨rfl, rfl⟩
    rfl

theorem lor_land_ne_zero_iff (a b c : Nat) :
    (a ||| b) &&& c ≠ 0 ↔ a &&& c ≠ 0 ∨ b &&& c ≠ 0 := by
  rw [Nat.and_comm (a ||| b) c, Nat.and_or_distrib_left, Nat.and_comm c a, Nat.and_comm c b,
    Ne, lor_eq_zero_iff]
  tauto

/-- Two modifier constants share a bit exactly when they are the same non-zero constant. -/
theorem SDLMod_land_ne_zero_iff :
    ∀ x ∈ SDLMod.values, ∀ m ∈ SDLMod.values, m.2 ≠ 0 → (x.2 &&& m.2 ≠ 0 ↔ x = m) := by
  decide

theorem SDLMod_orAll_land (S : List (String × Nat)) (hS : ∀ s ∈ S, s ∈ SDLMod.values)
    (m : String × Nat) (hm : m ∈ SDLMod.values) (hm0 : m.2 ≠ 0) :
    SDLMod.orAll S &&& m.2 ≠ 0 ↔ m ∈ S := by
  induction S with
  | nil => simp [SDLMod.orAll]
  | cons x S ih =>
    have hx : x ∈ SDLMod.values := hS x (List.mem_cons_self x S)
    have hS2 : ∀ s ∈ S, s ∈ SDLMod.values := fun s hs => hS s (List.mem_cons_of_mem x hs)
    have step : SDLMod.orAll (x :: S) = x.2 ||| SDLMod.orAll S := rfl
    rw [step, lor_land_ne_zero_iff, ih hS2, SDLMod_land_ne_zero_iff x hx m hm hm0,
      List.mem_cons]
    constructor
    · rintro (h | h)
      · exact Or.inl h.symm
      · exact Or.inr h
    · rintro (h | h)
      · exact Or.inl h.symm
      · exact Or.inr h

/-! ## Strictly increasing lists -/

theorem strictlyIncreasing_pairwise :
    ∀ l : List Nat, strictlyIncreasing l = true → l.Pairwise (· < ·) := by
  intro l
  induction l with
  | nil => intro _; exact List.Pairwise.nil
  | cons a t ih =>
    cases t with
    | nil => intro _; exact List.pairwise_singleton _ a
    | cons b t =>
      intro h
      simp only [strictlyIncreasing, Bool.and_eq_true, decide_eq_true_eq] at h
      have ht := ih h.2
      refine List.Pairwise.cons ?_ ht
      intro c hc
      rcases List.mem_cons.1 hc with rfl | hc
      · exact h.1
      · exact Nat.lt_trans h.1 (List.rel_of_pairwise_cons ht hc)

theorem pairwise_lt_snd_inj (l : List (String × Nat))
    (h : (l.map Prod.snd).Pairwise (· < ·)) :
    ∀ a ∈ l, ∀ b ∈ l, a.2 = b.2 → a = b := by
  induction l with
  | nil => intro a ha; cases ha
  | cons x t ih =>
    rw [List.map_cons, List.pairwise_cons] at h
    intro a ha b hb hab
    rcases List.mem_cons.1 ha with hax | hat
    · rcases List.mem_cons.1 hb with hbx | hbt
      · rw [hax, hbx]
      · have := h.1 b.2 (List.mem_map_of_mem Prod.snd hbt)
        rw [hax] at hab
        omega
    · rcases List.mem_cons.1 hb with hbx | hbt
      · have := h.1 a.2 (List.mem_map_of_mem Prod.snd hat)
        rw [hbx] at hab
        omega
      · exact ih h.2 a hat b hbt hab

/-! ## Counting bits -/

theorem lor_div_two (a b : Nat) : (a ||| b) / 2 = a / 2 ||| b / 2 := by
  apply Nat.eq_of_testBit_eq
  intro i
  rw [← Nat.testBit_succ, Nat.testBit_or, Nat.testBit_or, Nat.testBit_succ, Nat.testBit_succ]

theorem land_div_two (a b : Nat) : (a &&& b) / 2 = a / 2 &&& b / 2 := by
  apply Nat.eq_of_testBit_eq
  intro i
  rw [← Nat.testBit_succ, Nat.testBit_and, Nat.testBit_and, Nat.testBit_succ,
    Nat.testBit_succ]

theorem lor_mod_two_of_disjoint (a b : Nat) (h : a &&& b = 0) :
    (a ||| b) % 2 = a % 2 + b % 2 := by
  have h0 : (a &&& b).testBit 0 = false := by rw [h, Nat.zero_testBit]
  have h1 := Nat.testBit_or a b 0
  rw [Nat.testBit_and] at h0
  simp only [Nat.testBit_zero] at h0 h1
  rcases Nat.mod_two_eq_zero_or_one a with ha | ha <;>
    rcases Nat.mod_two_eq_zero_or_one b with hb | hb <;>
    rcases Nat.mod_two_eq_zero_or_one (a ||| b) with hab | hab <;>
    simp_all

theorem popCountBits_lor (w : Nat) :
    ∀ a b : Nat, a &&& b = 0 →
      popCountBits w (a ||| b) = popCountBits w a + popCountBits w b := by
  induction w with
  | zero => intro a b _; rfl
  | succ w ih =>
    intro a b h
    have h2 : a / 2 &&& b / 2 = 0 := by rw [← land_div_two, h]
    simp only [popCountBits]
    rw [lor_div_two, ih _ _ h2, lor_mod_two_of_disjoint a b h]
    omega

theorem popCountBits_le_of_lt (w : Nat) :
    ∀ n x : Nat, x < 2 ^ n → popCountBits w x ≤ n := by
  induction w with
  | zero => intro n x _; exact Nat.zero_le n
  | succ w ih =>
    intro n x hx
    cases n with
    | zero =>
      have hx0 : x = 0 := by simpa using hx
      subst hx0
      have hz : popCountBits w 0 = 0 := by
        have := ih 0 0 (by decide)
        omega
      simp [popCountBits, hz]
    | succ n =>
      have hx2 : x / 2 < 2 ^ n := by
        rw [Nat.div_lt_iff_lt_mul (by decide : 0 < 2)]
        rw [Nat.pow_succ] at hx
        exact hx
      have := ih n (x / 2) hx2
      have hm : x % 2 < 2 := Nat.mod_lt x (by decide)
      simp only [popCountBits]
      omega

theorem land_lor_eq_zero (a b c : Nat) (hac : a &&& c = 0) (hbc : b &&& c = 0) :
    (a ||| b) &&& c = 0 := by
  rw [Nat.and_comm, Nat.and_or_distrib_left, Nat.and_comm c a, Nat.and_comm c b, hac, hbc]
  rfl

/-! ## The event queue -/

theorem EventQueue.push_of_room (q : EventQueue) (e : SDL_Event)
    (h : ∀ c, q.capacity = some c → q.events.length < c) :
    q.push e = { q with events := q.events ++ [e] } := by
  have hfull : q.full = false := by
    unfold EventQueue.full
    cases hc : q.capacity with
    | none => rfl
    | some c =>
      have := h c hc
      simp only [decide_eq_false_iff_not]
      omega
  simp [EventQueue.push, hfull]

theorem EventQueue.pushAll_of_room (evs : List SDL_Event) :
    ∀ q : EventQueue, (∀ c, q.capacity = some c → q.events.length + evs.length ≤ c) →
      q.pushAll evs = { q with events := q.events ++ evs } := by
  induction evs with
  | nil => intro q _; simp [EventQueue.pushAll]
  | cons e evs ih =>
    intro q h
    have h1 : ∀ c, q.capacity = some c → q.events.length < c := by
      intro c hc
      have := h c hc
      simp only [List.length_cons] at this
      omega
    have hstep : q.pushAll (e :: evs) = (q.push e).pushAll evs := rfl
    rw [hstep, EventQueue.push_of_room q e h1]
    rw [ih]
    · simp
    · intro c hc
      have := h c hc
      simp only [List.length_cons, List.length_append, List.length_singleton,
        List.length_nil] at this ⊢
      omega

theorem EventQueue.pollN_events (evs : List SDL_Event) :
    ∀ q : EventQueue, q.events = evs →
      q.pollN evs.length = (evs.map some, { q with events := [] }) := by
  induction evs with
  | nil =>
    intro q h
    cases q
    simp_all [EventQueue.pollN]
  | cons e evs ih =>
    intro q h
    have hp : q.poll = (some e, { q with events := evs }) := by
      simp [EventQueue.poll, h]
    simp only [List.length_cons, EventQueue.pollN, hp, List.map_cons]
    rw [ih { q with events := evs } rfl]

/-! ## Claims -/

/-- C1. The GL attribute keys are the twelve listed ones, in the listed order, and their
integer identities are `0, 1, ..., 11` in that order: the key-to-integer map is a bijection
onto the set `{0, ..., 11}`. -/
theorem C1_GLattr_identities :
    SDL_GLattr.values =
      [("SDL_GL_RED_SIZE", 0), ("SDL_GL_GREEN_SIZE", 1), ("SDL_GL_BLUE_SIZE", 2),
       ("SDL_GL_ALPHA_SIZE", 3), ("SDL_GL_DOUBLEBUFFER", 4), ("SDL_GL_BUFFER_SIZE", 5),
       ("SDL_GL_DEPTH_SIZE", 6), ("SDL_GL_STENCIL_SIZE", 7), ("SDL_GL_ACCUM_RED_SIZE", 8),
       ("SDL_GL_ACCUM_GREEN_SIZE", 9), ("SDL_GL_ACCUM_BLUE_SIZE", 10),
       ("SDL_GL_ACCUM_ALPHA_SIZE", 11)] ∧
    (SDL_GLattr.values.map Prod.fst).Nodup ∧
    (SDL_GLattr.values.map Prod.snd).Nodup ∧
    (∀ v : Nat, v ∈ SDL_GLattr.values.map Prod.snd ↔ v < 12) ∧
    (∀ a ∈ SDL_GLattr.values, SDL_GLattr.val a.1 = some a.2) := by
  refine ⟨by decide, by decide, by decide, ?_, by decide⟩
  intro v
  have h : SDL_GLattr.values.map Prod.snd = List.range 12 := by decide
  rw [h, List.mem_range]

/-- C2. The modifier bits are independently settable: `KMOD_NONE` is `0`; every non-zero
modifier constant has exactly one bit set; two distinct constants have bitwise AND `0`;
and for every collection `S` of modifier constants and every non-zero modifier constant
`m`, the OR of `S` has a bit in common with `m` if and only if `m` is in `S`. -/
theorem C2_modifier_bits_independent :
    SDLMod.val "KMOD_NONE" = some 0 ∧
    SDLMod.values.map Prod.fst =
      ["KMOD_NONE", "KMOD_LSHIFT", "KMOD_RSHIFT", "KMOD_LCTRL", "KMOD_RCTRL", "KMOD_LALT",
       "KMOD_RALT", "KMOD_LMETA", "KMOD_RMETA", "KMOD_NUM", "KMOD_CAPS", "KMOD_MODE",
       "KMOD_RESERVED"] ∧
    (∀ m ∈ SDLMod.values, m.2 ≠ 0 → popCount m.2 = 1) ∧
    (∀ x ∈ SDLMod.values, ∀ y ∈ SDLMod.values, x ≠ y → x.2 &&& y.2 = 0) ∧
    (∀ S : List (String × Nat), (∀ s ∈ S, s ∈ SDLMod.values) →
      ∀ m ∈ SDLMod.values, m.2 ≠ 0 → (SDLMod.orAll S &&& m.2 ≠ 0 ↔ m ∈ S)) :=
  ⟨by decide, by decide, by decide, by decide,
    fun S hS m hm hm0 => SDLMod_orAll_land S hS m hm hm0⟩

/-- Witness of C2 at the mask `KMOD_LSHIFT | KMOD_CAPS`, tested against `KMOD_CAPS`. -/
theorem C2_modifier_bits_independent_witness :
    (SDLMod.orAll [("KMOD_LSHIFT", 0x0001), ("KMOD_CAPS", 0x2000)] &&& 0x2000 ≠ 0 ↔
      (("KMOD_CAPS", 0x2000) : String × Nat) ∈
        [("KMOD_LSHIFT", 0x0001), ("KMOD_CAPS", 0x2000)]) ∧
    SDLMod.orAll [("KMOD_LSHIFT", 0x0001), ("KMOD_CAPS", 0x2000)] = 0x2001 :=
  ⟨C2_modifier_bits_independent.2.2.2.2 [("KMOD_LSHIFT", 0x0001), ("KMOD_CAPS", 0x2000)]
      (by decide) ("KMOD_CAPS", 0x2000) (by decide) (by decide),
    by decide⟩

/-- C3. Key symbols are ASCII-aligned for printable keys: every key symbol of the ASCII
mapped group, `SDLK_BACKSPACE` to `SDLK_DELETE`, has the ASCII code of the character it is
named after as its value; the key of the `i`-th lower-case letter has value `97 + i` (so
the key of `a` is `0x61`) and the key of the digit `d` has value `48 + d`. -/
theorem C3_keys_ascii_aligned :
    (enumValues SDLKey.asciiDecl).head? = some ("SDLK_BACKSPACE", 8) ∧
    (enumValues SDLKey.asciiDecl).getLast? = some ("SDLK_DELETE", 127) ∧
    (∀ e ∈ enumValues SDLKey.asciiDecl,
      SDLKey.val e.1 = some e.2 ∧ SDLKey.asciiCode e.1 = some e.2 ∧ e.2 < 128) ∧
    (∀ i, i < 26 → SDLKey.val (SDLKey.letterName i) = some (97 + i)) ∧
    (∀ d, d < 10 → SDLKey.val (SDLKey.digitName d) = some (48 + d)) ∧
    SDLKey.letterName 0 = "SDLK_a" ∧ SDLKey.val "SDLK_a" = some 0x61 ∧
    SDLKey.digitName 0 = "SDLK_0" := by
  refine ⟨by decide, by decide, by decide, by decide, by decide, by decide, by decide,
    by decide⟩

/-- Witness of C3 at the letter `z` (number 25) and at the digit `9`. -/
theorem C3_keys_ascii_aligned_witness :
    SDLKey.val (SDLKey.letterName 25) = some 122 ∧ SDLKey.val (SDLKey.digitName 9) = some 57 :=
  ⟨C3_keys_ascii_aligned.2.2.2.1 25 (by decide),
    C3_keys_ascii_aligned.2.2.2.2.1 9 (by decide)⟩

/-- C4, as it stands, fails: the mouse-motion member carries the button state besides the
position and the relative delta, so the shapes of `SDL_Event` are not the listed ones. -/
theorem C4_motion_carries_state :
    SDL_Event.shapeOf "motion" = some ["state", "x", "y", "xrel", "yrel"] ∧
    SDL_Event.listedShapes.lookup "motion" = some ["x", "y", "xrel", "yrel"] ∧
    SDL_Event.shapes ≠ SDL_Event.listedShapes := by
  refine ⟨by decide, by decide, by decide⟩

/-- C4, amended. `SDL_Event` has one `struct` member per shape, thirteen of them under
pairwise distinct names, each starting with the tag `uint8_t type`; besides the tag they
carry the listed fields, the mouse-motion member carrying the button state as well; the
key payload `SDL_keysym` is scancode, key symbol, modifier mask and unicode. -/
theorem C4_event_shapes :
    SDL_Event.shapes =
      [ ("active", ["gain", "state"]),
        ("key", ["state", "keysym"]),
        ("motion", ["state", "x", "y", "xrel", "yrel"]),
        ("button", ["button", "state", "x", "y"]),
        ("jaxis", ["which", "axis", "value"]),
        ("jball", ["which", "ball", "xrel", "yrel"]),
        ("jhat", ["which", "hat", "value"]),
        ("jbutton", ["which", "button", "state"]),
        ("resize", ["w", "h"]),
        ("expose", []),
        ("quit", []),
        ("user", ["code", "data1", "data2"]),
        ("syswm", ["msg"]) ] ∧
    (∀ m ∈ SDL_Event.members, m.2.head? = some tagField) ∧
    (SDL_Event.members.map Prod.fst).Nodup ∧
    SDL_Event.decl.head? = some (Member.scalar tagField) ∧
    SDL_keysym.decl =
      [(CType.uint8_t, "scancode"), (CType.SDLKey, "sym"), (CType.SDLMod, "mod"),
       (CType.uint16_t, "unicode")] := by
  refine ⟨by decide, by decide, by decide, by decide, by decide⟩

/-- C5, as it stands, fails: the event type does not have eleven payload members. -/
theorem C5_not_eleven_members : SDL_Event.members.length ≠ 11 := by decide

/-- C5, amended. The event model is a discriminated variant with exactly thirteen event
shapes: `SDL_Event` has thirteen payload members, under pairwise distinct names, next to
the bare tag. -/
theorem C5_thirteen_members :
    SDL_Event.members.length = 13 ∧
    (SDL_Event.members.map Prod.fst).Nodup ∧
    SDL_Event.decl.length = 14 := by
  refine ⟨by decide, by decide, by decide⟩

/-- C6. The event queue is FIFO: on a queue created empty, after any sequence of events is
pushed without overflow and polled as many times, the polls return the events in the order
they were pushed and leave the queue empty; polling an empty queue reports "empty"
(`SDL_PollEvent` returns `0`) and changes neither the queue nor `*event`; polling a queue
that holds an event returns `1` with the oldest event. -/
theorem C6_event_queue_fifo (capacity : Option Nat) (policy : OverflowPolicy)
    (evs : List SDL_Event) (room : ∀ c, capacity = some c → evs.length ≤ c) :
    ((EventQueue.init capacity policy).pushAll evs).events = evs ∧
    ((EventQueue.init capacity policy).pushAll evs).pollN evs.length =
      (evs.map some, EventQueue.init capacity policy) ∧
    (∀ (q : EventQueue) (event : SDL_Event), q.events = [] →
      q.poll = (none, q) ∧ SDL_PollEvent q event = (0, event, q)) ∧
    (∀ (q : EventQueue) (event e : SDL_Event) (es : List SDL_Event), q.events = e :: es →
      SDL_PollEvent q event = (1, e, { q with events := es })) := by
  have hpush : (EventQueue.init capacity policy).pushAll evs =
      { EventQueue.init capacity policy with events := evs } := by
    rw [EventQueue.pushAll_of_room evs (EventQueue.init capacity policy)]
    · simp [EventQueue.init]
    · intro c hc
      have := room c hc
      simp only [EventQueue.init, List.length_nil]
      omega
  refine ⟨by rw [hpush], ?_, ?_, ?_⟩
  · rw [hpush, EventQueue.pollN_events evs _ rfl]
    rfl
  · intro q event h
    simp [EventQueue.poll, SDL_PollEvent, h]
  · intro q event e es h
    simp [EventQueue.poll, SDL_PollEvent, h]

/-- Witness of C6, the scenario of the specification on a queue of capacity one: the key
event of `a` (symbol `97`, no modifier, unicode `0x61`; the tag `2` and the state `1`
stand for key-down and pressed, which the header does not define) is pushed, the first
poll returns it and the second poll returns empty. -/
theorem C6_event_queue_fifo_witness :
    (((EventQueue.init (some 1) OverflowPolicy.rejectNewest).pushAll
        [SDL_Event.key 2 1 ⟨38, 97, 0, 0x61⟩]).pollN 1 =
      ([some (SDL_Event.key 2 1 ⟨38, 97, 0, 0x61⟩)],
        EventQueue.init (some 1) OverflowPolicy.rejectNewest)) ∧
    SDL_PollEvent ((EventQueue.init (some 1) OverflowPolicy.rejectNewest).push
        (SDL_Event.key 2 1 ⟨38, 97, 0, 0x61⟩)) (SDL_Event.quit 0) =
      (1, SDL_Event.key 2 1 ⟨38, 97, 0, 0x61⟩,
        EventQueue.init (some 1) OverflowPolicy.rejectNewest) ∧
    SDL_PollEvent (EventQueue.init (some 1) OverflowPolicy.rejectNewest)
        (SDL_Event.key 2 1 ⟨38, 97, 0, 0x61⟩) =
      (0, SDL_Event.key 2 1 ⟨38, 97, 0, 0x61⟩,
        EventQueue.init (some 1) OverflowPolicy.rejectNewest) ∧
    SDLKey.val "SDLK_a" = some 97 ∧ SDLMod.val "KMOD_NONE" = some 0 :=
  ⟨(C6_event_queue_fifo (some 1) OverflowPolicy.rejectNewest
      [SDL_Event.key 2 1 ⟨38, 97, 0, 0x61⟩] (by intro c hc; cases hc; decide)).2.1,
    by decide, by decide, by decide, by decide⟩

/-- C7, as it stands, fails: the header has no validating constructor, a pixel format is
any record of in-range field values, and `SDL_PixelFormat.overlapping` is one whose red
and green masks overlap and whose masks do not fit within its eight bits per pixel; its
triplets even pass the consistency check the specification describes. -/
theorem C7_unvalidated_format :
    SDL_PixelFormat.overlapping.inRange ∧
    SDL_PixelFormat.overlapping.describedValid ∧
    SDL_PixelFormat.overlapping.Rmask &&& SDL_PixelFormat.overlapping.Gmask = 0xFF ∧
    ¬ SDL_PixelFormat.overlapping.masksDisjoint ∧
    ¬ SDL_PixelFormat.overlapping.masksFit ∧
    ¬ (∀ f : SDL_PixelFormat, f.inRange → f.masksDisjoint ∧ f.masksFit) := by
  refine ⟨by decide, by decide, by decide, by decide, by decide, ?_⟩
  intro h
  exact absurd (h SDL_PixelFormat.overlapping (by decide)).1 (by decide)

/-- C7, amended. For every pixel format (a record of in-range field values) whose four
channel masks are pairwise non-overlapping and jointly fit within `BitsPerPixel`, the sum
of the mask widths is at most `BitsPerPixel`, and at most 32. -/
theorem C7_mask_widths_fit (f : SDL_PixelFormat) (hr : f.inRange) (hd : f.masksDisjoint)
    (hf : f.masksFit) :
    f.maskWidths ≤ f.BitsPerPixel ∧ f.maskWidths ≤ 32 := by
  obtain ⟨hrg, hrb, hra, hgb, hga, hba⟩ := hd
  have h1 : popCount (f.Rmask ||| f.Gmask) = popCount f.Rmask + popCount f.Gmask :=
    popCountBits_lor 32 _ _ hrg
  have h2 : popCount (f.Rmask ||| f.Gmask ||| f.Bmask) =
      popCount (f.Rmask ||| f.Gmask) + popCount f.Bmask :=
    popCountBits_lor 32 _ _ (land_lor_eq_zero _ _ _ hrb hgb)
  have h3 : popCount (f.Rmask ||| f.Gmask ||| f.Bmask ||| f.Amask) =
      popCount (f.Rmask ||| f.Gmask ||| f.Bmask) + popCount f.Amask :=
    popCountBits_lor 32 _ _
      (land_lor_eq_zero _ _ _ (land_lor_eq_zero _ _ _ hra hga) hba)
  have hsum : f.maskWidths = popCount (f.Rmask ||| f.Gmask ||| f.Bmask ||| f.Amask) := by
    unfold SDL_PixelFormat.maskWidths
    omega
  have hfit : popCount (f.Rmask ||| f.Gmask ||| f.Bmask ||| f.Amask) ≤ f.BitsPerPixel :=
    popCountBits_le_of_lt 32 _ _ hf
  have h32 : f.Rmask ||| f.Gmask ||| f.Bmask ||| f.Amask < 2 ^ 32 := by
    obtain ⟨_, _, _, _, _, _, _, _, _, _, hR, hG, hB, hA, _, _⟩ := hr
    have e : UINT32_MAX = 2 ^ 32 - 1 := rfl
    rw [e] at hR hG hB hA
    exact Nat.or_lt_two_pow (Nat.or_lt_two_pow (Nat.or_lt_two_pow (by omega) (by omega))
      (by omega)) (by omega)
  have hw : popCount (f.Rmask ||| f.Gmask ||| f.Bmask ||| f.Amask) ≤ 32 :=
    popCountBits_le_of_lt 32 _ _ h32
  omega

/-- Witness of C7 at the 32-bit format with one byte per channel: its mask widths sum
to 32. -/
theorem C7_mask_widths_fit_witness :
    SDL_PixelFormat.rgba8888.maskWidths ≤ SDL_PixelFormat.rgba8888.BitsPerPixel ∧
    SDL_PixelFormat.rgba8888.maskWidths = 32 ∧ SDL_PixelFormat.rgba8888.describedValid :=
  ⟨(C7_mask_widths_fit SDL_PixelFormat.rgba8888 (by decide) (by decide) (by decide)).1,
    by decide, by decide⟩

/-- C8. The key symbols are strictly increasing in declaration order from `SDLK_BACKSPACE`
(8) to `SDLK_UNDO` (322); two enumerators of `SDLKey` with the same value are the same
enumerator or the alias pair `SDLK_UNKNOWN`, `SDLK_FIRST` (both 0); and the groups sit in
pairwise disjoint ranges: ASCII mapped keys in [8,127], international keys exactly
[160,255], keypad [256,272], arrows and home/end [273,281], function keys [282,296],
modifier keys [300,314], miscellaneous keys [315,322]. -/
theorem C8_key_symbols_increasing :
    SDLKey.values =
      ("SDLK_UNKNOWN", 0) :: ("SDLK_FIRST", 0) :: SDLKey.namedKeys ++ [("SDLK_LAST", 323)] ∧
    SDLKey.namedKeys.head? = some ("SDLK_BACKSPACE", 8) ∧
    SDLKey.namedKeys.getLast? = some ("SDLK_UNDO", 322) ∧
    (SDLKey.namedKeys.map Prod.snd).Pairwise (· < ·) ∧
    (SDLKey.namedKeys.map Prod.snd).Nodup ∧
    (∀ a ∈ SDLKey.values, ∀ b ∈ SDLKey.values, a.2 = b.2 →
      a = b ∨ (a.2 = 0 ∧ (a.1 = "SDLK_UNKNOWN" ∨ a.1 = "SDLK_FIRST") ∧
        (b.1 = "SDLK_UNKNOWN" ∨ b.1 = "SDLK_FIRST"))) ∧
    SDLKey.namedKeys =
      enumValues SDLKey.asciiDecl ++ enumValues SDLKey.worldDecl ++
        enumValues SDLKey.keypadDecl ++ enumValues SDLKey.arrowsDecl ++
        enumValues SDLKey.functionDecl ++ enumValues SDLKey.modifierDecl ++
        enumValues SDLKey.miscDecl ∧
    (∀ e ∈ enumValues SDLKey.asciiDecl, 8 ≤ e.2 ∧ e.2 ≤ 127) ∧
    (enumValues SDLKey.worldDecl).map Prod.snd = List.range' 160 96 ∧
    (∀ e ∈ enumValues SDLKey.keypadDecl, 256 ≤ e.2 ∧ e.2 ≤ 272) ∧
    (∀ e ∈ enumValues SDLKey.arrowsDecl, 273 ≤ e.2 ∧ e.2 ≤ 281) ∧
    (∀ e ∈ enumValues SDLKey.functionDecl, 282 ≤ e.2 ∧ e.2 ≤ 296) ∧
    (∀ e ∈ enumValues SDLKey.modifierDecl, 300 ≤ e.2 ∧ e.2 ≤ 314) ∧
    (∀ e ∈ enumValues SDLKey.miscDecl, 315 ≤ e.2 ∧ e.2 ≤ 322) := by
  have hvals : SDLKey.values =
      ("SDLK_UNKNOWN", 0) :: ("SDLK_FIRST", 0) :: SDLKey.namedKeys ++ [("SDLK_LAST", 323)] := by
    decide
  have hinc : strictlyIncreasing
      ((("SDLK_FIRST", 0) :: SDLKey.namedKeys ++ [("SDLK_LAST", 323)]).map Prod.snd) = true := by
    decide
  have hpw := strictlyIncreasing_pairwise _ hinc
  have hnamed : (SDLKey.namedKeys.map Prod.snd).Pairwise (· < ·) := by
    have h2 := hpw
    rw [List.cons_append, List.map_cons, List.pairwise_cons, List.map_append,
      List.pairwise_append] at h2
    exact h2.2.1
  refine ⟨hvals, by decide, by decide, hnamed, hnamed.imp (fun hlt => Nat.ne_of_lt hlt), ?_,
    by decide, by decide, by decide, by decide, by decide, by decide, by decide, by decide⟩
  intro a ha b hb hab
  rw [hvals] at ha hb
  have hinj := pairwise_lt_snd_inj _ hpw
  rcases List.mem_cons.1 ha with hau | hat
  · rcases List.mem_cons.1 hb with hbu | hbt
    · exact Or.inl (by rw [hau, hbu])
    · have hf : (("SDLK_FIRST", 0) : String × Nat) ∈
          ("SDLK_FIRST", 0) :: SDLKey.namedKeys ++ [("SDLK_LAST", 323)] :=
        List.mem_cons_self _ _
      have hb0 : b.2 = 0 := by rw [← hab, hau]
      have hbf : b = ("SDLK_FIRST", 0) := (hinj b hbt _ hf hb0)
      refine Or.inr ⟨by rw [hau], Or.inl (by rw [hau]), Or.inr (by rw [hbf])⟩
  · rcases List.mem_cons.1 hb with hbu | hbt
    · have hf : (("SDLK_FIRST", 0) : String × Nat) ∈
          ("SDLK_FIRST", 0) :: SDLKey.namedKeys ++ [("SDLK_LAST", 323)] :=
        List.mem_cons_self _ _
      have ha0 : a.2 = 0 := by rw [hab, hbu]
      have haf : a = ("SDLK_FIRST", 0) := (hinj a hat _ hf ha0)
      refine Or.inr ⟨ha0, Or.inr (by rw [haf]), Or.inl (by rw [hbu])⟩
    · exact Or.inl (hinj a hat b hbt hab)

/-- Witness of C8 at `SDLK_F1`: a key of the function group lies in [282,296]. -/
theorem C8_key_symbols_increasing_witness :
    282 ≤ (("SDLK_F1", 282) : String × Nat).2 ∧ (("SDLK_F1", 282) : String × Nat).2 ≤ 296 :=
  C8_key_symbols_increasing.2.2.2.2.2.2.2.2.2.2.2.1 ("SDLK_F1", 282) (by decide)

/-- C9. `SDLK_LAST` equals 323 and every key symbol `k` of the enumeration satisfies
`k < SDLK_LAST`, so reading a key state table of `SDLK_LAST` entries at the index of any
key symbol stays within the table. -/
theorem C9_key_symbols_index_table (table : List Nat) (h : table.length = SDLK_LAST) :
    SDLK_LAST = 323 ∧ SDLKey.val "SDLK_LAST" = some 323 ∧
    SDLKey.values = SDLKey.keys ++ [("SDLK_LAST", 323)] ∧
    (∀ e ∈ SDLKey.keys, e.2 < SDLK_LAST ∧ ∃ st, keyStateAt table e.2 = some st) := by
  have hlast : SDLK_LAST = 323 := by decide
  have hkeys : ∀ e ∈ SDLKey.keys, e.2 < 323 := by decide
  refine ⟨hlast, by decide, by decide, ?_⟩
  intro e he
  have hlt := hkeys e he
  refine ⟨by rw [hlast]; exact hlt, ?_⟩
  have hidx : e.2 < table.length := by rw [h, hlast]; exact hlt
  exact ⟨table.get ⟨e.2, hidx⟩, by simp [keyStateAt, List.get?_eq_get hidx]⟩

/-- Witness of C9 at a table of 323 released keys. -/
theorem C9_key_symbols_index_table_witness :
    SDLK_LAST = 323 ∧ SDLKey.val "SDLK_LAST" = some 323 ∧
    SDLKey.values = SDLKey.keys ++ [("SDLK_LAST", 323)] ∧
    (∀ e ∈ SDLKey.keys, e.2 < SDLK_LAST ∧
      ∃ st, keyStateAt (List.replicate 323 0) e.2 = some st) :=
  C9_key_symbols_index_table (List.replicate 323 0) (by
    rw [List.length_replicate]; decide)

/-- C10, as it stands, fails: a surface 16384 pixels wide with four bytes per pixel needs
a pitch of at least 65536, which the 16-bit pitch field cannot hold. -/
theorem C10_pitch_overflows :
    isInt 16384 ∧ (0 : Int) < 16384 ∧
    ¬ ∃ s : SDL_Surface, s.inRange ∧ s.w = 16384 ∧ s.format.BytesPerPixel = 4 ∧
      s.pitchInvariant := by
  refine ⟨by decide, by decide, ?_⟩
  rintro ⟨s, hr, hw, hb, hp⟩
  obtain ⟨_, _, _, _, hpitch, _⟩ := hr
  unfold SDL_Surface.pitchInvariant at hp
  have e : UINT16_MAX = 65535 := by decide
  rw [hw, hb] at hp
  rw [e] at hpitch
  push_cast at hp
  omega

/-- C10, amended. For every width `w > 0` in the range of the width field and every
`BytesPerPixel` in `{1,2,3,4}`, a surface record of that width and format can satisfy its
pitch invariant exactly when `w * BytesPerPixel` is at most 65535, the largest value of
the unsigned 16-bit pitch field. -/
theorem C10_pitch_satisfiable (w : Int) (bytes : Nat) (hw : 0 < w) (hmax : isInt w)
    (hb : bytes ∈ [1, 2, 3, 4]) :
    (∃ s : SDL_Surface, s.inRange ∧ s.w = w ∧ s.format.BytesPerPixel = bytes ∧
      s.pitchInvariant) ↔ w * (bytes : Int) ≤ (UINT16_MAX : Int) := by
  have e16 : UINT16_MAX = 65535 := by decide
  constructor
  · rintro ⟨s, hr, hsw, hsb, hp⟩
    obtain ⟨_, _, _, _, hpitch, _⟩ := hr
    unfold SDL_Surface.pitchInvariant at hp
    rw [hsw, hsb] at hp
    rw [e16] at hpitch ⊢
    push_cast
    omega
  · intro hle
    have hbytes : 1 ≤ bytes ∧ bytes ≤ 4 := by
      simp only [List.mem_cons, List.mem_singleton, List.not_mem_nil, or_false] at hb
      omega
    have hnn : 0 ≤ w * (bytes : Int) := by positivity
    refine ⟨SDL_Surface.ofSize w bytes (w * (bytes : Int)).toNat, ?_, rfl, rfl, ?_⟩
    · have hp : (w * (bytes : Int)).toNat ≤ UINT16_MAX := by
        have := Int.toNat_of_nonneg hnn
        omega
      have h8 : UINT8_MAX = 255 := by decide
      have h32 : UINT32_MAX = 4294967295 := by decide
      have hi0 : isInt 0 := by decide
      have hi1 : isInt 1 := by decide
      refine ⟨?_, ?_, hmax, hi1, hp, hi0, hi0, hi0, hi0, hi1⟩
      · simp [SDL_Surface.ofSize, h32]
      · simp only [SDL_Surface.ofSize, SDL_PixelFormat.inRange, h8, h32]
        omega
    · unfold SDL_Surface.pitchInvariant
      simp only [SDL_Surface.ofSize]
      rw [Int.toNat_of_nonneg hnn]

/-- Witness of C10 at an 800 pixel wide surface with four bytes per pixel. -/
theorem C10_pitch_satisfiable_witness :
    (∃ s : SDL_Surface, s.inRange ∧ s.w = 800 ∧ s.format.BytesPerPixel = 4 ∧
      s.pitchInvariant) ↔ (800 : Int) * ((4 : Nat) : Int) ≤ (UINT16_MAX : Int) :=
  C10_pitch_satisfiable 800 4 (by decide) (by decide) (by decide)
